import Mathlib

/-!
Shallow embedding of the text-extraction core of the meals_plan_ai service:
the ingredient string parser (src/ingredient_service.py) and the recipe
extraction pipeline (src/recipe_service.py).

Modelling conventions:
- Python strings are modelled as `List Char` internally, `String` at the
  public boundaries.
- The character classes of Python regexes (backslash-s, backslash-d) and the
  case folding of str.lower are modelled over the ASCII range, which is the
  range the claims exercise.
- Python float arithmetic on quantities is modelled by exact rationals; the
  decimal rendering agrees with CPython float repr on terminating decimal
  expansions (the ones the code produces for the claims) and truncates
  non-terminating expansions.
- The regexes of the source are compiled by hand into deterministic matchers.
  Where the Python engine could backtrack, the greedy-first choice is provably
  the only one that can succeed (shrinking a greedy digit or whitespace run
  re-exposes a character of the same class, which the continuation of each
  pattern rejects), so the matchers take the greedy run directly.
- The one exception the ingredient parser body can raise, ZeroDivisionError
  from Fraction on a zero denominator, is modelled by Except.
-/

namespace MealsPlanAI

set_option maxRecDepth 20000

/-- Python backslash-s over ASCII: space, tab, newline, carriage return,
vertical tab, form feed. -/
def isSpace (c : Char) : Bool :=
  c = ' ' || c = '\t' || c = '\n' || c = '\r' || c = Char.ofNat 11 || c = Char.ofNat 12

/-- Python backslash-d over ASCII. -/
def isDigit (c : Char) : Bool :=
  '0' ≤ c && c ≤ '9'

/-- Python str.strip with no arguments: drop leading and trailing whitespace. -/
def pyStrip (cs : List Char) : List Char :=
  ((cs.dropWhile isSpace).reverse.dropWhile isSpace).reverse

/-- Python int applied to a run of ASCII digits. -/
def digitsToNat (ds : List Char) : Nat :=
  ds.foldl (fun n c => 10 * n + (c.toNat - 48)) 0

/-- Decimal digits of a natural number, as characters. -/
def natDigitsAux : Nat → Nat → List Char
  | 0, _ => []
  | _ + 1, 0 => []
  | fuel + 1, n => natDigitsAux fuel (n / 10) ++ [Char.ofNat (48 + n % 10)]

/-- Python str applied to a nonnegative int. -/
def natToChars (n : Nat) : List Char :=
  if n = 0 then ['0'] else natDigitsAux (n + 1) n

/-- ASCII lowercase of a character list (models Python str.lower on the
ASCII inputs the claims exercise). -/
def toLowerList (cs : List Char) : List Char :=
  cs.map Char.toLower

/-- Case-insensitive literal-prefix test: does cs start with the (lowercase)
keyword kw? -/
def ciStarts (kw : List Char) (cs : List Char) : Bool :=
  toLowerList (cs.take kw.length) == kw

/-- ingredient_service.py lines 26-45: the Unicode vulgar-fraction table. -/
def UNICODE_FRACTIONS : List (Char × List Char) :=
  [('¼', "1/4".data), ('½', "1/2".data), ('¾', "3/4".data),
   ('⅐', "1/7".data), ('⅑', "1/9".data), ('⅒', "1/10".data),
   ('⅓', "1/3".data), ('⅔', "2/3".data),
   ('⅕', "1/5".data), ('⅖', "2/5".data), ('⅗', "3/5".data), ('⅘', "4/5".data),
   ('⅙', "1/6".data), ('⅚', "5/6".data),
   ('⅛', "1/8".data), ('⅜', "3/8".data), ('⅝', "5/8".data), ('⅞', "7/8".data)]

/-- ingredient_service.py lines 141-145: replace every Unicode fraction glyph
by its ASCII form (each key is a single character, so the repeated
str.replace calls amount to a character-wise substitution). -/
def normalizeFractions (cs : List Char) : List Char :=
  cs.flatMap fun c => ((UNICODE_FRACTIONS.lookup c).getD [c])

/-- ingredient_service.py lines 48-81: the fixed unit vocabulary. -/
def UNITS : List (List Char) :=
  ["cup".data, "cups".data, "c".data,
   "tablespoon".data, "tablespoons".data, "tbsp".data, "tbs".data, "tb".data,
   "teaspoon".data, "teaspoons".data, "tsp".data, "ts".data,
   "fluid ounce".data, "fluid ounces".data, "fl oz".data, "floz".data,
   "pint".data, "pints".data, "pt".data,
   "quart".data, "quarts".data, "qt".data,
   "gallon".data, "gallons".data, "gal".data,
   "milliliter".data, "milliliters".data, "ml".data,
   "liter".data, "liters".data, "l".data,
   "pound".data, "pounds".data, "lb".data, "lbs".data,
   "ounce".data, "ounces".data, "oz".data,
   "gram".data, "grams".data, "g".data,
   "kilogram".data, "kilograms".data, "kg".data,
   "pinch".data, "pinches".data,
   "dash".data, "dashes".data,
   "clove".data, "cloves".data,
   "slice".data, "slices".data,
   "piece".data, "pieces".data,
   "can".data, "cans".data,
   "package".data, "packages".data, "pkg".data,
   "bunch".data, "bunches".data,
   "head".data, "heads".data,
   "sprig".data, "sprigs".data,
   "stalk".data, "stalks".data,
   "stick".data, "sticks".data,
   "whole".data,
   "small".data, "medium".data, "large".data]

/-- One number of the quantity pattern: a greedy digit run, optionally
followed by a dot and a further greedy digit run. Returns the matched
characters and the unmatched rest. Models the regex fragment
backslash-d+ (dot backslash-d+)? of ingredient_service.py line 156;
shrinking either greedy run re-exposes a digit, which every continuation
of the surrounding pattern rejects, so no backtracking case is lost. -/
def matchNumber (cs : List Char) : Option (List Char × List Char) :=
  let p1 := cs.span isDigit
  if p1.1.isEmpty then none
  else
    match p1.2 with
    | '.' :: r2 =>
        let p2 := r2.span isDigit
        if p2.1.isEmpty then some (p1.1, p1.2) else some (p1.1 ++ '.' :: p2.1, p2.2)
    | _ => some (p1.1, p1.2)

/-- Second alternative of group 2 of the quantity pattern: a number
optionally followed by a range tail (whitespace, dash, whitespace, number).
The matched text is returned verbatim, interior whitespace included. -/
def matchNumOrRange (cs : List Char) : Option (List Char × List Char) :=
  match matchNumber cs with
  | none => none
  | some (base, r) =>
      let pw1 := r.span isSpace
      match pw1.2 with
      | '-' :: r2 =>
          let pw2 := r2.span isSpace
          match matchNumber pw2.2 with
          | some (n2, r4) => some (base ++ pw1.1 ++ '-' :: pw2.1 ++ n2, r4)
          | none => some (base, r)
      | _ => some (base, r)

/-- Group 2 of the quantity pattern of ingredient_service.py line 156: the
alternation of a literal fraction (digits slash digits) and a number or
numeric range, tried in that order. -/
def matchFracOrNum (cs : List Char) : Option (List Char × List Char) :=
  let p1 := cs.span isDigit
  if p1.1.isEmpty then none
  else
    match p1.2 with
    | '/' :: r2 =>
        let p2 := r2.span isDigit
        if p2.1.isEmpty then matchNumOrRange cs else some (p1.1 ++ '/' :: p2.1, p2.2)
    | _ => matchNumOrRange cs

/-- The full anchored quantity pattern of ingredient_service.py line 156:
an optional whole-number-plus-whitespace prefix (group 1), then group 2.
Returns (group 1, group 2, rest after the match). The prefix-present
attempt is tried first, exactly as the greedy optional group does. -/
def matchQuantity (cs : List Char) : Option (Option (List Char) × List Char × List Char) :=
  let attempt1 : Option (Option (List Char) × List Char × List Char) :=
    match matchNumber cs with
    | some (g1, r1) =>
        let pw := r1.span isSpace
        if pw.1.isEmpty then none
        else
          match matchFracOrNum pw.2 with
          | some (g2, r3) => some (some g1, g2, r3)
          | none => none
    | none => none
  match attempt1 with
  | some res => some res
  | none =>
      match matchFracOrNum cs with
      | some (g2, r) => some (none, g2, r)
      | none => none

/-- The gate regex of ingredient_service.py line 159 (case-insensitive):
letter a, one or more whitespace characters, then pinch or dash as a
literal prefix of the remainder. -/
def pinchDashGate (cs : List Char) : Bool :=
  match cs with
  | [] => false
  | c :: rest =>
      c.toLower == 'a' &&
        (let pw := rest.span isSpace
         !pw.1.isEmpty && (ciStarts "pinch".data pw.2 || ciStarts "dash".data pw.2))

/-- The full regex of ingredient_service.py line 160 (case-insensitive):
a, whitespace, pinch or dash, whitespace, of, whitespace, then at least one
character. Returns the lowercased keyword and the trimmed remainder
(group 2 of the regex stops at a newline, as the dot does; the input is
already stripped, so the greedy whitespace runs admit no backtracking).
-/
def pinchDashOfMatch (cs : List Char) : Option (List Char × List Char) :=
  match cs with
  | [] => none
  | c :: rest =>
      if c.toLower == 'a' then
        let pw := rest.span isSpace
        if pw.1.isEmpty then none
        else
          let kw : Option (List Char × List Char) :=
            if ciStarts "pinch".data pw.2 then some ("pinch".data, pw.2.drop 5)
            else if ciStarts "dash".data pw.2 then some ("dash".data, pw.2.drop 4)
            else none
          match kw with
          | none => none
          | some (k, r2) =>
              let pw2 := r2.span isSpace
              if pw2.1.isEmpty then none
              else if ciStarts "of".data pw2.2 then
                let pw3 := (pw2.2.drop 2).span isSpace
                if pw3.1.isEmpty then none
                else
                  let g2 := pw3.2.takeWhile (fun ch => ch ≠ '\n')
                  if g2.isEmpty then none else some (k, pyStrip g2)
              else none
      else none

/-- Python str.split with no arguments: split on whitespace runs, no empty
words. -/
def pySplitAux : List Char → List Char → List (List Char)
  | [], acc => if acc.isEmpty then [] else [acc.reverse]
  | c :: rest, acc =>
      if isSpace c then
        if acc.isEmpty then pySplitAux rest [] else acc.reverse :: pySplitAux rest []
      else pySplitAux rest (c :: acc)

def pySplit (cs : List Char) : List (List Char) :=
  pySplitAux cs []

/-- Python str.join with a single-space separator. -/
def joinSpace (ws : List (List Char)) : List Char :=
  List.intercalate [' '] ws

/-- Python str.rstrip with the argument dot-comma-semicolon. -/
def rstripPunct (cs : List Char) : List Char :=
  (cs.reverse.dropWhile (fun c => c = '.' || c = ',' || c = ';')).reverse

/-- ingredient_service.py lines 196-218: unit extraction on the text left
after quantity removal. Returns the extracted unit, if any, and the
remaining text. The final branch for size descriptors mirrors the source
even though small, medium and large are already in the unit vocabulary. -/
def extractUnit (text : List Char) : Option (List Char) × List Char :=
  if text.isEmpty then (none, text)
  else
    match pySplit text with
    | [] => (none, text)
    | w0 :: rest =>
        let first_word := rstripPunct (toLowerList w0)
        match rest with
        | w1 :: rest2 =>
            let two_words := rstripPunct (toLowerList w0 ++ ' ' :: toLowerList w1)
            if UNITS.contains two_words then
              (some two_words, pyStrip (joinSpace rest2))
            else if UNITS.contains first_word then
              (some first_word, pyStrip (joinSpace rest))
            else if first_word = "small".data || first_word = "medium".data
                || first_word = "large".data then
              (some first_word, pyStrip (joinSpace rest))
            else (none, text)
        | [] =>
            if UNITS.contains first_word then
              (some first_word, pyStrip (joinSpace rest))
            else (none, text)

/-- ingredient_service.py line 222: remove a leading case-insensitive
of-plus-whitespace from the text. -/
def stripLeadingOf (cs : List Char) : List Char :=
  match cs with
  | o :: f :: rest =>
      if o.toLower == 'o' && f.toLower == 'f' then
        let pw := rest.span isSpace
        if pw.1.isEmpty then cs else pw.2
      else cs
  | _ => cs

/-- ingredient_service.py lines 196-223 as one stage: unit extraction then
name cleanup. The name is absent exactly when the remaining text is empty.
-/
def unitAndName (text : List Char) : Option (List Char) × Option (List Char) :=
  let p := extractUnit text
  let text3 := stripLeadingOf p.2
  (p.1, if text3.isEmpty then none else some (pyStrip text3))

/-- An exact nonnegative rational as an unnormalized numerator-denominator
pair (the denominator is positive by construction at every use). The
quantity arithmetic of the source is Python float arithmetic; the claims
only exercise values on which float arithmetic is exact, and those are
modelled exactly here. -/
def ratAdd (a b : Nat × Nat) : Nat × Nat :=
  (a.1 * b.2 + b.1 * a.2, a.2 * b.2)

/-- The numeric value of a matched number literal (digits, optional dot and
digits); models the Python float of the literal. -/
def ratOfNumber (cs : List Char) : Nat × Nat :=
  let p1 := cs.span isDigit
  match p1.2 with
  | '.' :: ds => (digitsToNat p1.1 * 10 ^ ds.length + digitsToNat ds, 10 ^ ds.length)
  | _ => (digitsToNat p1.1, 1)

/-- Python Fraction applied to a digits-slash-digits literal: raises
ZeroDivisionError on a zero denominator, modelled as Except.error. -/
def fractionVal (g2 : List Char) : Except String (Nat × Nat) :=
  let num := g2.takeWhile (fun c => c ≠ '/')
  let den := (g2.dropWhile (fun c => c ≠ '/')).drop 1
  if digitsToNat den = 0 then .error "ZeroDivisionError"
  else .ok (digitsToNat num, digitsToNat den)

/-- Fractional decimal digits of rem over den (rem below den), with fuel;
exact for terminating decimal expansions, truncating otherwise. -/
def decDigitsAux : Nat → Nat → Nat → List Char
  | 0, _, _ => []
  | _ + 1, 0, _ => []
  | fuel + 1, rem, den =>
      Char.ofNat (48 + (rem * 10) / den) :: decDigitsAux fuel (rem * 10 % den) den

/-- ingredient_service.py lines 184 and 191: str(total) if total has a
fractional remainder, else str(int(total)), for a nonnegative total given
as a numerator-denominator pair. -/
def renderAmount (q : Nat × Nat) : List Char :=
  if q.1 % q.2 = 0 then natToChars (q.1 / q.2)
  else natToChars (q.1 / q.2) ++ '.' :: decDigitsAux 17 (q.1 % q.2) q.2

/-- ingredient_service.py lines 172-191: the amount string computed from a
quantity match, given group 1 (the optional whole part) and group 2. -/
def amountOfMatch (g1 : Option (List Char)) (g2 : List Char) : Except String (List Char) :=
  let wholeVal : Nat × Nat := match g1 with | some w => ratOfNumber w | none => (0, 1)
  if g2.contains '/' then
    match fractionVal g2 with
    | .error e => .error e
    | .ok f => .ok (renderAmount (ratAdd wholeVal f))
  else if g2.contains '-' then .ok (pyStrip g2)
  else .ok (renderAmount (ratAdd wholeVal (ratOfNumber g2)))

/-- ingredient_service.py lines 147-225: _parse_ingredient_parts, returning
(amount, unit, name); Except.error models the ZeroDivisionError that
Fraction raises on a zero denominator. -/
def parseIngredientParts (ingredient_str : List Char) :
    Except String (Option (List Char) × Option (List Char) × Option (List Char)) :=
  let text := normalizeFractions (pyStrip ingredient_str)
  if pinchDashGate text then
    match pinchDashOfMatch text with
    | some (k, nm) => .ok (some ['1'], some k, some nm)
    | none => .ok (some ['1'], some "pinch".data, some (pyStrip (text.drop 2)))
  else
    match matchQuantity text with
    | some (g1, g2, rest) =>
        match amountOfMatch g1 g2 with
        | .error e => .error e
        | .ok am =>
            let p := unitAndName (pyStrip rest)
            .ok (some am, p.1, p.2)
    | none =>
        let p := unitAndName text
        .ok (none, p.1, p.2)

/-- Python truthiness of an optional string. -/
def truthyStr (o : Option (List Char)) : Bool :=
  !(o.getD []).isEmpty

/-- The ParseIngredientResponse record (models.py lines 211-216). -/
structure ParseIngredientResponse where
  name : String
  amount : Option String := none
  unit : Option String := none
  is_well_formed : Bool
  raw_text : String
deriving DecidableEq

/-- ingredient_service.py lines 94-139: parse_ingredient. Total by
construction; the except branch of the source is the Except.error case of
the parts function. -/
def parseIngredient (input : String) : ParseIngredientResponse :=
  let ingredient_str := pyStrip input.data
  if ingredient_str.length < 2 then
    ⟨String.mk ingredient_str, none, none, false, String.mk ingredient_str⟩
  else
    match parseIngredientParts ingredient_str with
    | .ok (amount, unit, name) =>
        ⟨if truthyStr name then String.mk (name.getD []) else String.mk ingredient_str,
         amount.map String.mk, unit.map String.mk,
         truthyStr name && (truthyStr amount || truthyStr unit),
         String.mk ingredient_str⟩
    | .error _ => ⟨String.mk ingredient_str, none, none, false, String.mk ingredient_str⟩

/-- models.py lines 7-10: the effort levels. -/
inductive Effort where
  | LOW
  | MEDIUM
  | HIGH
deriving DecidableEq

/-- recipe_service.py lines 328-339: _estimate_effort. All extracted times
are nonnegative, so the time is a Nat. -/
def estimateEffort (total_time_minutes : Option Nat) : Option Effort :=
  match total_time_minutes with
  | none => none
  | some t => if t < 30 then some .LOW else if t < 60 then some .MEDIUM else some .HIGH

/-- Python truthiness of an optional nonnegative int: None and 0 are falsy.
-/
def truthyNat (o : Option Nat) : Bool :=
  (o.getD 0) != 0

/-- recipe_service.py lines 163-183: _extract_time, as a function of the
three time values extracted independently by _extract_time_value. The
source tests the values with Python truthiness, so a present-but-zero
value falls through like an absent one. -/
def extractTime (prep cook total : Option Nat) : Option Nat :=
  if truthyNat total then total
  else if truthyNat prep || truthyNat cook then
    let t := prep.getD 0 + cook.getD 0
    if t > 0 then some t else none
  else none

/-- re.search of a digit run immediately followed by the marker character:
the accumulator carries the value of the digit run currently being read.
Models the hour and minute searches of recipe_service.py lines 233-240. -/
def findNumBeforeAux (marker : Char) : Option Nat → List Char → Option Nat
  | _, [] => none
  | acc, c :: rest =>
      if isDigit c then
        findNumBeforeAux marker (some ((acc.getD 0) * 10 + (c.toNat - 48))) rest
      else
        match acc with
        | some n => if c = marker then some n else findNumBeforeAux marker none rest
        | none => findNumBeforeAux marker none rest

def findNumBefore (marker : Char) (cs : List Char) : Option Nat :=
  findNumBeforeAux marker none cs

/-- recipe_service.py lines 220-246: _parse_iso_duration. The try block can
raise nothing (int on a digit run always succeeds), so the function is a
plain total function. -/
def parseIsoDuration (duration : String) : Option Nat :=
  let cs := duration.data
  if cs.take 2 = ['P', 'T'] then
    let body := cs.drop 2
    let hours := (findNumBefore 'H' body).getD 0
    let minutes := (findNumBefore 'M' body).getD 0
    let total := hours * 60 + minutes
    if total > 0 then some total else none
  else none

/-- The per-field results of the HTML extraction stage of parse_recipe
(titles, descriptions and raw ingredient lines from the soup, and the three
time values produced by _extract_time_value): the document traversal
itself is abstracted at this interface. -/
structure PageExtract where
  title : Option String
  description : Option String
  prepTime : Option Nat
  cookTime : Option Nat
  totalTime : Option Nat
  ingredientsRaw : List String
deriving DecidableEq

/-- models.py lines 194-200: ParsedIngredient. -/
structure ParsedIngredient where
  name : String
  amount : Option String := none
  unit : Option String := none
  is_well_formed : Bool := true
  raw_text : Option String := none
deriving DecidableEq

/-- models.py lines 203-209: ParseRecipeResponse. -/
structure ParseRecipeResponse where
  title : Option String := none
  description : Option String := none
  total_time_minutes : Option Nat := none
  effort : Option Effort := none
  ingredients : List ParsedIngredient := []
  url : String
deriving DecidableEq

/-- recipe_service.py lines 23-86: parse_recipe. The fetch and soup
construction are abstracted as an Except value: Except.error carries the
exception text when fetching or top-level parsing fails, and the except
branch of the source builds the degraded response from it. On success the
pipeline composes _extract_time, _estimate_effort and parse_ingredient
exactly as the source does; the per-ingredient except branch of the source
is dead here because parse_ingredient is total. -/
def parseRecipe (url : String) (page : Except String PageExtract) : ParseRecipeResponse :=
  match page with
  | .error e =>
      ⟨none, some ("Failed to parse recipe: " ++ e), none, none, [], url⟩
  | .ok p =>
      let total := extractTime p.prepTime p.cookTime p.totalTime
      ⟨p.title, p.description, total, estimateEffort total,
       p.ingredientsRaw.map (fun raw =>
         let parsed := parseIngredient raw
         ⟨parsed.name, parsed.amount, parsed.unit, parsed.is_well_formed, some raw⟩),
       url⟩

/-- C1: for every input string the ingredient parse operation returns a
result (the embedded function is total by construction), and whenever an
exception occurs during the parsing body (the Except.error case of the
parts function, reached through the ZeroDivisionError of Fraction), the
returned record has is_well_formed false, name equal to the original
trimmed input, and amount and unit absent. -/
theorem c1_exception_yields_degraded_record (s e : String)
    (h : parseIngredientParts (pyStrip s.data) = .error e) :
    parseIngredient s =
      ⟨String.mk (pyStrip s.data), none, none, false, String.mk (pyStrip s.data)⟩ := by
  by_cases hl : (pyStrip s.data).length < 2
  · simp [parseIngredient, hl]
  · simp [parseIngredient, hl, h]

/-- Witness for C1 at the concrete input where Fraction raises
ZeroDivisionError on the zero denominator of 1/0. -/
theorem c1_witness :
    parseIngredient "1/0 cups flour" =
      ⟨String.mk (pyStrip "1/0 cups flour".data), none, none, false,
       String.mk (pyStrip "1/0 cups flour".data)⟩ :=
  c1_exception_yields_degraded_record "1/0 cups flour" "ZeroDivisionError" rfl

/-- C2: for every URL whose fetch or top-level HTML parsing fails, the
recipe extraction pipeline returns, without raising, a degraded response
in which url equals the caller-supplied URL, description contains the
failure reason, and every other field is absent (title, time and effort
absent, ingredients empty). -/
theorem c2_fetch_failure_degraded (url e : String) :
    parseRecipe url (.error e) =
      ⟨none, some ("Failed to parse recipe: " ++ e), none, none, [], url⟩ :=
  rfl

/-- C3 counterexample: the claim says raw_text equals the original,
untouched input including caller-supplied whitespace, but on the input
with a trailing space the code stores the trimmed string. -/
theorem c3_counterexample :
    (parseIngredient "salt ").raw_text = "salt" ∧
    (parseIngredient "salt ").raw_text ≠ "salt " := by
  exact ⟨by decide, by decide⟩

/-- C3 amended: the raw_text field always equals the trimmed input. -/
theorem c3_raw_text_is_trimmed_input (s : String) :
    (parseIngredient s).raw_text = String.mk (pyStrip s.data) := by
  by_cases hl : (pyStrip s.data).length < 2
  · simp [parseIngredient, hl]
  · simp only [parseIngredient]
    rw [if_neg hl]
    rcases hp : parseIngredientParts (pyStrip s.data) with e | ⟨a, u, nm⟩ <;> rfl

/-- C4: quantity rendering. A mixed number and a lone fraction become the
sum, rendered as an integer string when exact and as a decimal string
otherwise; a numeric range becomes the trimmed literal range string,
never decomposed into bounds; and the two round-trip examples of the
claim hold verbatim. -/
theorem c4_quantity_rendering :
    parseIngredient "2 1/2 cups all-purpose flour" =
      ⟨"all-purpose flour", some "2.5", some "cups", true, "2 1/2 cups all-purpose flour"⟩ ∧
    parseIngredient "1-2 medium onions, diced" =
      ⟨"onions, diced", some "1-2", some "medium", true, "1-2 medium onions, diced"⟩ ∧
    parseIngredient "3/4 cup sugar" =
      ⟨"sugar", some "0.75", some "cup", true, "3/4 cup sugar"⟩ ∧
    parseIngredient "1 2/2 cups stock" =
      ⟨"stock", some "2", some "cups", true, "1 2/2 cups stock"⟩ ∧
    (∀ g1 g2, '/' ∉ g2 → '-' ∈ g2 →
      amountOfMatch g1 g2 = .ok (pyStrip g2)) := by
  refine ⟨by decide, by decide, by decide, by decide, ?_⟩
  intro g1 g2 h1 h2
  simp [amountOfMatch, h1, h2]

/-- Witness for C4: one concrete conclusion of each kind, the last one
obtained by applying the range clause of the theorem. -/
theorem c4_witness :
    amountOfMatch (some ['2']) "1 - 3".data = .ok "1 - 3".data :=
  c4_quantity_rendering.2.2.2.2 (some ['2']) "1 - 3".data (by decide) (by decide)

/-- C5 counterexample: the claim says a present totalTime is always used,
but the code tests it with Python truthiness, so a present-but-zero
totalTime is skipped in favour of the prep and cook sum. -/
theorem c5_counterexample :
    extractTime (some 10) none (some 0) = some 10 ∧
    extractTime (some 10) none (some 0) ≠ some 0 ∧
    extractTime none none (some 0) = none := by
  exact ⟨rfl, by decide, rfl⟩

/-- C5 amended: totalTime is used when present and nonzero; otherwise, if
prepTime or cookTime is present and nonzero, their sum (absent treated as
0) is used; otherwise the result is absent; and ISO duration parsing maps
PT1H30M to 90, PT45M to 45, and any input lacking the PT prefix to
absent. -/
theorem c5_time_resolution_amended :
    (∀ prep cook m, m ≠ 0 → extractTime prep cook (some m) = some m) ∧
    (∀ prep cook total, truthyNat total = false →
      (truthyNat prep || truthyNat cook) = true →
      extractTime prep cook total = some (prep.getD 0 + cook.getD 0)) ∧
    (∀ prep cook total, truthyNat total = false → truthyNat prep = false →
      truthyNat cook = false → extractTime prep cook total = none) ∧
    parseIsoDuration "PT1H30M" = some 90 ∧
    parseIsoDuration "PT45M" = some 45 ∧
    (∀ d : String, d.data.take 2 ≠ ['P', 'T'] → parseIsoDuration d = none) := by
  refine ⟨?_, ?_, ?_, by decide, by decide, ?_⟩
  · intro prep cook m hm
    simp [extractTime, truthyNat, hm]
  · intro prep cook total h1 h2
    have hpos : 0 < prep.getD 0 + cook.getD 0 := by
      have h2' := h2
      simp only [truthyNat, Bool.or_eq_true, bne_iff_ne, ne_eq] at h2'
      omega
    simp [extractTime, h1, h2, hpos]
  · intro prep cook total h1 h2 h3
    simp [extractTime, h1, h2, h3]
  · intro d hd
    simp [parseIsoDuration, hd]

/-- Witness for C5 at concrete inputs: the sum branch and the missing-PT
branch of the amended claim. -/
theorem c5_witness :
    extractTime (some 20) (some 25) none = some 45 ∧ parseIsoDuration "1H30M" = none :=
  ⟨c5_time_resolution_amended.2.1 (some 20) (some 25) none rfl rfl,
   c5_time_resolution_amended.2.2.2.2.2 "1H30M" (by decide)⟩

/-- C6: when the normalized text matches the pinch-or-dash gate, the parse
returns amount 1 with, on a full a-pinch-or-dash-of match, the lowercased
keyword as unit and the trimmed remainder as name, and otherwise unit
pinch (even for dash) and the text with its first two characters stripped
and trimmed as name, with no further quantity or unit extraction; the two
concrete examples of the claim hold, and a fallback example shows the
pinch quirk. -/
theorem c6_pinch_dash_special_case :
    (∀ cs : List Char,
      pinchDashGate (normalizeFractions (pyStrip cs)) = true →
      (∀ k nm, pinchDashOfMatch (normalizeFractions (pyStrip cs)) = some (k, nm) →
        parseIngredientParts cs = .ok (some ['1'], some k, some nm)) ∧
      (pinchDashOfMatch (normalizeFractions (pyStrip cs)) = none →
        parseIngredientParts cs =
          .ok (some ['1'], some "pinch".data,
               some (pyStrip ((normalizeFractions (pyStrip cs)).drop 2))))) ∧
    parseIngredient "a pinch of salt" =
      ⟨"salt", some "1", some "pinch", true, "a pinch of salt"⟩ ∧
    parseIngredient "a dash of pepper" =
      ⟨"pepper", some "1", some "dash", true, "a dash of pepper"⟩ ∧
    parseIngredient "a dash or two of bitters" =
      ⟨"dash or two of bitters", some "1", some "pinch", true, "a dash or two of bitters"⟩ := by
  refine ⟨?_, by decide, by decide, by decide⟩
  intro cs hg
  constructor
  · intro k nm hm
    simp [parseIngredientParts, hg, hm]
  · intro hm
    simp [parseIngredientParts, hg, hm]

/-- Witness for C6 applying the full-match clause at a concrete input. -/
theorem c6_witness :
    parseIngredientParts "a dash of pepper".data =
      .ok (some ['1'], some "dash".data, some "pepper".data) :=
  (c6_pinch_dash_special_case.1 "a dash of pepper".data (by decide)).1
    "dash".data "pepper".data (by decide)

/-- C7: whenever at least two tokens remain after quantity removal and the
lowercased first two tokens joined by a space (trailing punctuation
stripped) form a known unit, both tokens are consumed as the unit before
any single-token unit is considered; and the concrete fluid-ounce example
of the claim holds. -/
theorem c7_two_word_unit_precedence :
    (∀ text w0 w1 rest, pySplit text = w0 :: w1 :: rest →
      rstripPunct (toLowerList w0 ++ ' ' :: toLowerList w1) ∈ UNITS →
      extractUnit text =
        (some (rstripPunct (toLowerList w0 ++ ' ' :: toLowerList w1)),
         pyStrip (joinSpace rest))) ∧
    parseIngredient "1 fluid ounce lemon juice" =
      ⟨"lemon juice", some "1", some "fluid ounce", true, "1 fluid ounce lemon juice"⟩ := by
  constructor
  · intro text w0 w1 rest h hU
    cases text with
    | nil => simp [pySplit, pySplitAux] at h
    | cons c cs' => simp [extractUnit, h, hU]
  · decide

/-- Witness for C7 applying the two-word precedence clause at the text left
after removing the quantity of the fluid-ounce example. -/
theorem c7_witness :
    extractUnit "fluid ounce lemon juice".data =
      (some "fluid ounce".data, "lemon juice".data) :=
  c7_two_word_unit_precedence.1 "fluid ounce lemon juice".data "fluid".data "ounce".data
    ["lemon".data, "juice".data] (by decide) (by decide)

/-- C8: effort is a pure total function of the total time: absent maps to
absent, below 30 to LOW, from 30 to below 60 to MEDIUM, 60 or more to
HIGH, with the four boundary examples; and in every response produced by
the pipeline the effort field is present exactly when total_time_minutes
is present. -/
theorem c8_effort_pure_function_of_time :
    estimateEffort none = none ∧
    (∀ n, n < 30 → estimateEffort (some n) = some Effort.LOW) ∧
    (∀ n, 30 ≤ n → n < 60 → estimateEffort (some n) = some Effort.MEDIUM) ∧
    (∀ n, 60 ≤ n → estimateEffort (some n) = some Effort.HIGH) ∧
    estimateEffort (some 29) = some Effort.LOW ∧
    estimateEffort (some 30) = some Effort.MEDIUM ∧
    estimateEffort (some 59) = some Effort.MEDIUM ∧
    estimateEffort (some 60) = some Effort.HIGH ∧
    (∀ url page, (parseRecipe url page).effort.isSome =
      (parseRecipe url page).total_time_minutes.isSome) := by
  refine ⟨rfl, ?_, ?_, ?_, rfl, rfl, rfl, rfl, ?_⟩
  · intro n h
    simp [estimateEffort, h]
  · intro n h1 h2
    simp only [estimateEffort]
    rw [if_neg (by omega), if_pos h2]
  · intro n h
    simp only [estimateEffort]
    rw [if_neg (by omega), if_neg (by omega)]
  · intro url page
    cases page with
    | error e => rfl
    | ok p =>
        simp only [parseRecipe]
        cases extractTime p.prepTime p.cookTime p.totalTime with
        | none => rfl
        | some t =>
            simp only [estimateEffort]
            split <;> try rfl
            split <;> rfl

/-- Witness for C8 applying the MEDIUM and HIGH clauses at concrete times.
-/
theorem c8_witness :
    estimateEffort (some 45) = some Effort.MEDIUM ∧
    estimateEffort (some 100) = some Effort.HIGH :=
  ⟨c8_effort_pure_function_of_time.2.2.1 45 (by omega) (by omega),
   c8_effort_pure_function_of_time.2.2.2.1 100 (by omega)⟩

/-- C9: for every input of trimmed length at least 2 on which the parsing
body isolates no name, the parse returns name equal to the full trimmed
input and is_well_formed false, and the name field is nonempty. -/
theorem c9_name_falls_back_to_trimmed_input (s : String)
    (hlen : 2 ≤ (pyStrip s.data).length)
    (a u nm : Option (List Char))
    (hp : parseIngredientParts (pyStrip s.data) = .ok (a, u, nm))
    (hn : truthyStr nm = false) :
    (parseIngredient s).name = String.mk (pyStrip s.data) ∧
    (parseIngredient s).is_well_formed = false ∧
    (parseIngredient s).name ≠ "" := by
  have hlt : ¬ (pyStrip s.data).length < 2 := by omega
  have hne : pyStrip s.data ≠ [] := by
    intro h0
    rw [h0] at hlen
    simp at hlen
  have hname : (parseIngredient s).name = String.mk (pyStrip s.data) := by
    simp only [parseIngredient]
    rw [if_neg hlt, hp]
    simp [hn]
  have hwf : (parseIngredient s).is_well_formed = false := by
    simp only [parseIngredient]
    rw [if_neg hlt, hp]
    simp [hn]
  refine ⟨hname, hwf, ?_⟩
  rw [hname]
  intro hcon
  exact hne (congrArg String.data hcon)

/-- Witness for C9 at the concrete input 2 cups, whose quantity and unit
consume the entire text. -/
theorem c9_witness :
    (parseIngredient "2 cups").name = String.mk (pyStrip "2 cups".data) ∧
    (parseIngredient "2 cups").is_well_formed = false ∧
    (parseIngredient "2 cups").name ≠ "" :=
  c9_name_falls_back_to_trimmed_input "2 cups" (by decide)
    (some "2".data) (some "cups".data) none rfl rfl

/-- C10: when the quantity match has both a whole-number group and a range
group, the amount is the range literal alone and the whole number is
discarded, while the whole match (whole number and range) is consumed
from the text; shown in general for the amount computation and at the
concrete input of the claim. -/
theorem c10_leading_whole_discarded_before_range :
    (∀ w g2, '/' ∉ g2 → '-' ∈ g2 →
      amountOfMatch (some w) g2 = .ok (pyStrip g2)) ∧
    matchQuantity "2 1-3 cups flour".data =
      some (some ['2'], "1-3".data, " cups flour".data) ∧
    parseIngredient "2 1-3 cups flour" =
      ⟨"flour", some "1-3", some "cups", true, "2 1-3 cups flour"⟩ := by
  refine ⟨?_, by decide, by decide⟩
  intro w g2 h1 h2
  simp [amountOfMatch, h1, h2]

/-- Witness for C10 applying the range clause at the groups produced by the
concrete input of the claim. -/
theorem c10_witness :
    amountOfMatch (some ['2']) "1-3".data = .ok "1-3".data :=
  c10_leading_whole_discarded_before_range.1 ['2'] "1-3".data (by decide) (by decide)

end MealsPlanAI
